import Mathlib

/-!
Verification of the DocInsights frontend against its specification.

The definitions below are a shallow embedding of the JavaScript source:

* `src/services/api.js` (the axios client and the endpoint wrappers),
* `src/pages/ComparePage.jsx` (`toggle`, `handleCompare`),
* `src/pages/ChatPage.jsx` (`handleSend`),
* `src/pages/UploadPage.jsx` (`onDrop`, dropzone configuration, `pollStatus`,
  `handleSearch` of the Search page and `InsightCard` of the Document page).

Machine-irrelevant rendering (JSX markup, CSS classes) is not modelled; the
state updates, the requests issued and the toast notifications are.
-/

namespace DocInsights

/-! ### JavaScript string primitives

The pages use `String.prototype.trim`, `startsWith` and `endsWith`; they are
embedded here as structural functions on the character list of a string. -/

/-- Whitespace as removed by the JavaScript `trim` function (the ASCII part
of the WhiteSpace/LineTerminator productions). -/
def jsWhitespace (c : Char) : Bool :=
  c == ' ' || c == '\t' || c == '\n' || c == '\r' || c == '\x0b' || c == '\x0c'

/-- JavaScript `s.trim()`: strip leading and trailing whitespace. -/
def jsTrim (s : String) : String :=
  ⟨((s.data.dropWhile jsWhitespace).reverse.dropWhile jsWhitespace).reverse⟩

/-- JavaScript `s.startsWith(p)`. -/
def jsStartsWith (s p : String) : Bool :=
  p.data.isPrefixOf s.data

/-- JavaScript `s.endsWith(p)`. -/
def jsEndsWith (s p : String) : Bool :=
  p.data.isSuffixOf s.data

/-- A JSON-ish value appearing in request bodies.  Document ids are modelled
as `Nat`. -/
inductive JVal where
  | s (v : String)
  | n (v : Nat)
  | arr (v : List Nat)
  | nullv
deriving DecidableEq, Repr

/-- A request issued through the shared axios client of `src/services/api.js`.
The client is created with `axios.create({ baseURL, timeout: 120000 })`, so
every request it issues carries the instance-level timeout. -/
structure ApiRequest where
  method : String
  path : String
  body : List (String × JVal)
  timeout : Nat
deriving DecidableEq, Repr

/-- The instance-level timeout configured at `api = axios.create(...)`:
`timeout: 120000` ("2 min for AI operations"). -/
def apiTimeout : Nat := 120000

/-- Every request built on the shared client inherits `apiTimeout`. -/
def mkApiRequest (method path : String) (body : List (String × JVal)) : ApiRequest :=
  ⟨method, path, body, apiTimeout⟩

/-- JS `uploadDocument(file, onProgress)`: POST /documents/upload with the file
as multipart form data (the file is identified here by its name). -/
def uploadDocument (filename : String) : ApiRequest :=
  mkApiRequest "POST" "/documents/upload" [("file", .s filename)]

/-- JS `getDocuments()`: GET /documents. -/
def getDocuments : ApiRequest :=
  mkApiRequest "GET" "/documents" []

/-- JS `getDocument(id)`: GET /documents/:id. -/
def getDocument (id : Nat) : ApiRequest :=
  mkApiRequest "GET" ("/documents/" ++ toString id) []

/-- JS `getDocumentStatus(id)`: GET /documents/:id/status. -/
def getDocumentStatus (id : Nat) : ApiRequest :=
  mkApiRequest "GET" ("/documents/" ++ toString id ++ "/status") []

/-- JS `deleteDocument(id)`: DELETE /documents/:id. -/
def deleteDocument (id : Nat) : ApiRequest :=
  mkApiRequest "DELETE" ("/documents/" ++ toString id) []

/-- JS `getDocumentText(id)`: GET /documents/:id/text. -/
def getDocumentText (id : Nat) : ApiRequest :=
  mkApiRequest "GET" ("/documents/" ++ toString id ++ "/text") []

/-- JS `summarizeDocument(id)`: POST /documents/:id/summarize. -/
def summarizeDocument (id : Nat) : ApiRequest :=
  mkApiRequest "POST" ("/documents/" ++ toString id ++ "/summarize") []

/-- JS `extractDocument(id, docType = "general")`: POST /documents/:id/extract. -/
def extractDocument (id : Nat) (docType : String) : ApiRequest :=
  mkApiRequest "POST" ("/documents/" ++ toString id ++ "/extract")
    [("document_type", .s docType)]

/-- JS `detectRisks(id)`: POST /documents/:id/risks. -/
def detectRisks (id : Nat) : ApiRequest :=
  mkApiRequest "POST" ("/documents/" ++ toString id ++ "/risks") []

/-- JS `getInsights(id)`: GET /documents/:id/insights. -/
def getInsights (id : Nat) : ApiRequest :=
  mkApiRequest "GET" ("/documents/" ++ toString id ++ "/insights") []

/-- JS `semanticSearch(query, topK, documentId)`: POST /search with body
`{query, top_k, document_id}`. -/
def semanticSearch (query : String) (topK : Nat) (documentId : Option Nat) : ApiRequest :=
  mkApiRequest "POST" "/search"
    [("query", .s query), ("top_k", .n topK),
     ("document_id", match documentId with | some d => .n d | none => .nullv)]

/-- JS `semanticSearch(query)` with the default arguments `topK = 5`,
`documentId = null` applied, mirroring the JS default parameters. -/
def semanticSearchDefault (query : String) : ApiRequest :=
  semanticSearch query 5 none

/-- JS `chatWithDocument(id, question)`: POST /documents/:id/chat. -/
def chatWithDocument (id : Nat) (question : String) : ApiRequest :=
  mkApiRequest "POST" ("/documents/" ++ toString id ++ "/chat")
    [("question", .s question)]

/-- JS `getChatHistory(id)`: GET /documents/:id/chat/history. -/
def getChatHistory (id : Nat) : ApiRequest :=
  mkApiRequest "GET" ("/documents/" ++ toString id ++ "/chat/history") []

/-- JS `compareDocuments(documentIds, comparisonType = "general")`: POST /compare
with body `{document_ids, comparison_type}`. -/
def compareDocuments (documentIds : List Nat) (comparisonType : String) : ApiRequest :=
  mkApiRequest "POST" "/compare"
    [("document_ids", .arr documentIds), ("comparison_type", .s comparisonType)]

/-- JS `getDashboardStats()`: GET /dashboard/stats. -/
def getDashboardStats : ApiRequest :=
  mkApiRequest "GET" "/dashboard/stats" []

/-- JS `getRiskOverview()`: GET /dashboard/risks. -/
def getRiskOverview : ApiRequest :=
  mkApiRequest "GET" "/dashboard/risks" []

/-- JS `getTimeline()`: GET /dashboard/timeline. -/
def getTimeline : ApiRequest :=
  mkApiRequest "GET" "/dashboard/timeline" []

/-! ## ComparePage (`src/pages/ComparePage.jsx`) -/

/-- JS `toggle(id)` of ComparePage: if the id is already selected it is removed;
otherwise it is appended only while fewer than 5 ids are selected.
JS: `prev.includes(id) ? prev.filter(x => x !== id)
     : prev.length < 5 ? [...prev, id] : prev`. -/
def toggle (id : Nat) (prev : List Nat) : List Nat :=
  if prev.contains id then prev.filter (fun x => x != id)
  else if prev.length < 5 then prev ++ [id] else prev

/-- The selection reached from `init` by a sequence of toggle clicks. -/
def runTogglesFrom (init : List Nat) (clicks : List Nat) : List Nat :=
  clicks.foldl (fun sel id => toggle id sel) init

/-- The selection reached from the initial empty selection
(`useState([])`) by a sequence of toggle clicks. -/
def runToggles (clicks : List Nat) : List Nat :=
  runTogglesFrom [] clicks

/-- JS `handleCompare` of ComparePage: returns early when fewer than 2 documents
are selected, otherwise issues `compareDocuments(selected)` (with the default
comparison type `"general"`). -/
def handleCompare (selected : List Nat) : Option ApiRequest :=
  if selected.length < 2 then none
  else some (compareDocuments selected "general")

/-- Metadata of a listed document, as consumed by the pages
(`doc.id`, `doc.status`, `doc.original_filename`, `doc.file_type`). -/
structure DocMeta where
  id : Nat
  status : String
  original_filename : String
  file_type : String
deriving DecidableEq, Repr

/-- The document list of ComparePage: `d.documents.filter` keeping `doc.status === "ready"`. -/
def compareReadyDocs (docs : List DocMeta) : List DocMeta :=
  docs.filter (fun d => d.status == "ready")

/-! ## ChatPage (`src/pages/ChatPage.jsx`) -/

/-- A source citation attached to an assistant message
(`{chunk_index, page?, content}`; the floating-point `relevance_score` is
only rendered as a percentage bar and is not modelled). -/
structure ChatSource where
  chunk_index : Nat
  page : Option Nat
  content : String
deriving DecidableEq, Repr

/-- A chat message as stored in the `messages` state:
`{role, content, sources?, created_at}`.  Timestamps (`new Date()`) are
modelled as an abstract clock value. -/
structure ChatMsg where
  role : String
  content : String
  sources : List ChatSource
  created_at : Nat
deriving DecidableEq, Repr

/-- The payload of a successful `chatWithDocument` response:
`{answer, sources}`. -/
structure ChatResponse where
  answer : String
  sources : List ChatSource
deriving DecidableEq, Repr

/-- A toast notification fired via `useToast()`. -/
structure ToastEvent where
  kind : String
  title : String
  message : String
deriving DecidableEq, Repr

/-- The effect of one `handleSend` call: the final component state, the chat
requests issued, and the toasts fired. -/
structure ChatSendResult where
  messages : List ChatMsg
  input : String
  loading : Bool
  requests : List ApiRequest
  toasts : List ToastEvent
deriving DecidableEq, Repr

/-- The fallback assistant text appended on the error path of `handleSend`. -/
def chatFallbackText : String := "Sorry, I encountered an error. Please try again."

/-- JS `handleSend` of ChatPage.  `question = input.trim()`; when the question
is empty or a request is in flight, return with no state change.  Otherwise
clear the input, append the user message, issue `chatWithDocument`, and on
success append the assistant answer with its sources, on failure fire an
error toast and append the fixed fallback text.  `loading` ends `false`
(the `finally` block).  `outcome` stands for how the awaited request
resolves; `now` for the clock read by `new Date()`. -/
def handleSend (docId : Nat) (messages : List ChatMsg) (input : String)
    (loading : Bool) (outcome : Except Unit ChatResponse) (now : Nat) :
    ChatSendResult :=
  let question := jsTrim input
  if question == "" || loading then
    ⟨messages, input, loading, [], []⟩
  else
    let afterUser := messages ++ [⟨"user", question, [], now⟩]
    match outcome with
    | .ok r =>
        ⟨afterUser ++ [⟨"assistant", r.answer, r.sources, now⟩],
          "", false, [chatWithDocument docId question], []⟩
    | .error _ =>
        ⟨afterUser ++ [⟨"assistant", chatFallbackText, [], now⟩],
          "", false, [chatWithDocument docId question],
          [⟨"error", "Chat Error", "Failed to get response"⟩]⟩

/-! ## SearchPage (`handleSearch` in the `src/pages/UploadPage.jsx` bundle) -/

/-- JS `handleSearch` of SearchPage: returns early when `query.trim()` is empty;
otherwise issues `semanticSearch(query.trim(), 10)` and stores the response
in `results` on success (on failure the error is logged and `results` is
left unchanged).  `α` is the shape of the search response payload. -/
def handleSearch {α : Type} (query : String) (results : Option α)
    (outcome : Except Unit α) : Option α × List ApiRequest :=
  if jsTrim query == "" then (results, [])
  else
    match outcome with
    | .ok d => (some d, [semanticSearch (jsTrim query) 10 none])
    | .error _ => (results, [semanticSearch (jsTrim query) 10 none])

/-! ## UploadPage dropzone and `onDrop` -/

/-- A browser `File` as seen by the dropzone: name, MIME type, byte size. -/
structure JsFile where
  name : String
  mime : String
  size : Nat
deriving DecidableEq, Repr

/-- JS `maxSize: 50 * 1024 * 1024` from the `useDropzone` configuration. -/
def uploadMaxSizeBytes : Nat := 50 * 1024 * 1024

/-- The accept tokens induced by the `useDropzone` `accept` map: each MIME
key and each of its extensions
(PDF, DOCX and TXT, each MIME key mapped to its extension list). -/
def dropzoneAcceptTokens : List String :=
  ["application/pdf", ".pdf",
   "application/vnd.openxmlformats-officedocument.wordprocessingml.document", ".docx",
   "text/plain", ".txt"]

/-- One accept token matches a file when it is an extension the file name
ends with, or the exact MIME type of the file (per the documented react-dropzone
`attr-accept` matching for the configuration in the source). -/
def tokenMatches (f : JsFile) (t : String) : Bool :=
  if jsStartsWith t "." then jsEndsWith f.name t else f.mime == t

/-- A file passes the client-side validation of the dropzone iff some accept
token matches it and its size does not exceed `maxSize` (react-dropzone
rejects a file exactly when `file.size > maxSize`). -/
def fileAccepted (f : JsFile) : Bool :=
  dropzoneAcceptTokens.any (tokenMatches f) && decide (f.size ≤ uploadMaxSizeBytes)

/-- The `acceptedFiles` list the dropzone passes to `onDrop`: the dropped
files that pass validation. -/
def acceptedFiles (files : List JsFile) : List JsFile :=
  files.filter fileAccepted

/-- JS `onDrop` of UploadPage: `for (const file of acceptedFiles)` issues one
`uploadDocument(file, ...)` per accepted file. -/
def onDrop (accepted : List JsFile) : List ApiRequest :=
  accepted.map (fun f => uploadDocument f.name)

/-! ## Status polling (`pollStatus` of UploadPage) -/

/-- JS `setInterval(..., 3000)`: the polling period in milliseconds. -/
def pollIntervalMs : Nat := 3000

/-- JS `setTimeout(() => clearInterval(interval), 120000)`: the hard deadline
after which the interval is cleared unconditionally. -/
def pollDeadlineMs : Nat := 120000

/-- A document is done when its status is `ready` or `failed`
(JS: `d.status === "ready" || d.status === "failed"`). -/
def docDone (d : DocMeta) : Bool :=
  d.status == "ready" || d.status == "failed"

/-- JS `allDone = data.documents.every(...)`: every listed document is done
(vacuously true for an empty list). -/
def allDone (docs : List DocMeta) : Bool :=
  docs.all docDone

/-- Whether one poll tick clears the interval: a request error
(the `catch` branch) or all documents done both clear it. -/
def pollTickStops (outcome : Except Unit (List DocMeta)) : Bool :=
  match outcome with
  | .error _ => true
  | .ok docs => allDone docs

/-- The interval can tick at most `120000 / 3000` times before the deadline
timeout clears it. -/
def pollMaxTicks : Nat := pollDeadlineMs / pollIntervalMs

/-- Ticks executed from poll number `i` with `fuel` ticks left before the
deadline: each tick consumes one outcome and the loop stops early at the
first outcome that clears the interval. -/
def pollTicksFrom (outcomes : Nat → Except Unit (List DocMeta)) :
    Nat → Nat → Nat
  | 0, _ => 0
  | fuel + 1, i =>
      if pollTickStops (outcomes i) then 1
      else 1 + pollTicksFrom outcomes fuel (i + 1)

/-- Total number of poll ticks a `pollStatus` call executes, given the
outcome of each `getDocuments` poll. -/
def pollTicks (outcomes : Nat → Except Unit (List DocMeta)) : Nat :=
  pollTicksFrom outcomes pollMaxTicks 0

/-! ## InsightCard (`src/pages/UploadPage.jsx` bundle, Document page) -/

/-- A JavaScript value as produced by `JSON.parse` or held in
`insight.content_json`. -/
inductive JsValue where
  | nullv
  | bool (b : Bool)
  | str (s : String)
  | num (n : Int)
  | arr (xs : List JsValue)
  | obj (fields : List (String × JsValue))

/-- The `data` computed by `InsightCard`:
`try ... data = typeof content_json === "string" ? JSON.parse(content_json) : content_json ... catch ... data = empty object`.  `JSON.parse` (a host builtin) is
passed in as `parse`, returning `none` when it would throw; the `catch`
branch yields the empty object.  A non-string `content_json` is used
as-is and cannot throw. -/
def insightCardData (parse : String → Option JsValue) (contentJson : JsValue) :
    JsValue :=
  match contentJson with
  | .str s =>
      match parse s with
      | some v => v
      | none => .obj []
  | other => other

/-! ## Helper lemmas -/

theorem toggle_length_le (id : Nat) (sel : List Nat) (h : sel.length ≤ 5) :
    (toggle id sel).length ≤ 5 := by
  unfold toggle
  split
  · exact le_trans (List.length_filter_le _ _) h
  · split
    · rename_i hlt
      simp only [List.length_append, List.length_cons, List.length_nil]
      omega
    · exact h

theorem runTogglesFrom_length_le (clicks : List Nat) :
    ∀ init : List Nat, init.length ≤ 5 → (runTogglesFrom init clicks).length ≤ 5 := by
  induction clicks with
  | nil => intro init h; exact h
  | cons c cs ih => intro init h; exact ih (toggle c init) (toggle_length_le c init h)

theorem mem_toggle {x id : Nat} {sel : List Nat} (h : x ∈ toggle id sel) :
    x ∈ sel ∨ x = id := by
  unfold toggle at h
  split at h
  · exact Or.inl (List.mem_of_mem_filter h)
  · split at h
    · rcases List.mem_append.mp h with h1 | h1
      · exact Or.inl h1
      · exact Or.inr (by simpa using h1)
    · exact Or.inl h

theorem mem_runTogglesFrom {x : Nat} (clicks : List Nat) :
    ∀ init : List Nat, x ∈ runTogglesFrom init clicks → x ∈ init ∨ x ∈ clicks := by
  induction clicks with
  | nil => intro init h; exact Or.inl h
  | cons c cs ih =>
      intro init h
      rcases ih (toggle c init) h with h1 | h1
      · rcases mem_toggle h1 with h2 | h2
        · exact Or.inl h2
        · exact Or.inr (by simp [h2])
      · exact Or.inr (List.mem_cons_of_mem _ h1)

/-! ## Claim theorems -/

/-- Claim C1: the compare operation is only ever invoked with between 2 and 5
document ids: any sequence of toggle clicks starting from the empty
selection keeps the selection at no more than 5 entries; toggling a sixth
id when 5 are selected leaves the selection unchanged; toggling an
already-selected id removes it; `handleCompare` issues no request below 2
selected ids; and every `compareDocuments` request it does issue carries
between 2 and 5 document ids. -/
theorem compare_invoked_with_2_to_5_ids :
    (∀ clicks : List Nat, (runToggles clicks).length ≤ 5) ∧
    (∀ (sel : List Nat) (id : Nat), sel.length = 5 → id ∉ sel → toggle id sel = sel) ∧
    (∀ (sel : List Nat) (id : Nat), id ∈ sel →
      toggle id sel = sel.filter (fun x => x != id)) ∧
    (∀ sel : List Nat, sel.length < 2 → handleCompare sel = none) ∧
    (∀ (clicks : List Nat) (r : ApiRequest), handleCompare (runToggles clicks) = some r →
      ∃ ids : List Nat, r.body.lookup "document_ids" = some (JVal.arr ids) ∧
        2 ≤ ids.length ∧ ids.length ≤ 5) := by
  refine ⟨?_, ?_, ?_, ?_, ?_⟩
  · intro clicks
    exact runTogglesFrom_length_le clicks [] (by simp)
  · intro sel id h5 hnot
    have hc : sel.contains id = false := by simpa using hnot
    simp only [toggle, hc, h5]
    simp
  · intro sel id hm
    have hc : sel.contains id = true := by simpa using hm
    simp only [toggle, hc]
    simp
  · intro sel h2
    simp [handleCompare, h2]
  · intro clicks r hr
    unfold handleCompare at hr
    split at hr
    · cases hr
    · rename_i hlen
      cases hr
      refine ⟨runToggles clicks, ?_, by omega, ?_⟩
      · simp [compareDocuments, mkApiRequest, List.lookup]
      · exact runTogglesFrom_length_le clicks [] (by simp)

/-- Concrete instantiation of `compare_invoked_with_2_to_5_ids`: toggling a
sixth id at a full selection is a no-op, and the request produced after the
clicks `[1, 2, 3]` carries 2–5 ids. -/
theorem compare_invoked_with_2_to_5_ids_witness :
    toggle 6 [1, 2, 3, 4, 5] = [1, 2, 3, 4, 5] ∧
    ∃ ids : List Nat,
      (compareDocuments [1, 2, 3] "general").body.lookup "document_ids" =
        some (JVal.arr ids) ∧ 2 ≤ ids.length ∧ ids.length ≤ 5 :=
  ⟨compare_invoked_with_2_to_5_ids.2.1 [1, 2, 3, 4, 5] 6 (by decide) (by decide),
   compare_invoked_with_2_to_5_ids.2.2.2.2 [1, 2, 3]
     (compareDocuments [1, 2, 3] "general") (by decide)⟩

/-- Claim C8: only `ready` documents are offered for comparison — when every
toggle click targets an id from the filtered list of the Compare page
(`documents.filter` keeping `doc.status === "ready"`), every id in an issued
`compareDocuments` request belongs to a document that was listed with
status `ready`. -/
theorem compare_requests_only_ready_ids :
    ∀ (docs : List DocMeta) (clicks : List Nat),
      (∀ c ∈ clicks, c ∈ (compareReadyDocs docs).map DocMeta.id) →
      ∀ (r : ApiRequest) (ids : List Nat),
        handleCompare (runToggles clicks) = some r →
        r.body.lookup "document_ids" = some (JVal.arr ids) →
        ∀ i ∈ ids, ∃ d ∈ docs, d.id = i ∧ d.status = "ready" := by
  intro docs clicks hclicks r ids hr hlook i hi
  unfold handleCompare at hr
  split at hr
  · cases hr
  · cases hr
    have hids : ids = runToggles clicks := by
      have := hlook
      simp [compareDocuments, mkApiRequest, List.lookup] at this
      exact this.symm
    subst hids
    have hmem : i ∈ clicks := by
      rcases mem_runTogglesFrom clicks [] hi with h1 | h1
      · cases h1
      · exact h1
    rcases List.mem_map.mp (hclicks i hmem) with ⟨d, hd, hdi⟩
    rcases List.mem_filter.mp hd with ⟨hdocs, hstatus⟩
    exact ⟨d, hdocs, hdi, by simpa using hstatus⟩

/-- Concrete instantiation of `compare_requests_only_ready_ids` on a
two-document ready list and the clicks `[1, 2]`. -/
theorem compare_requests_only_ready_ids_witness :
    ∃ d ∈ [(⟨1, "ready", "a.pdf", "pdf"⟩ : DocMeta),
      ⟨2, "ready", "b.txt", "txt"⟩], d.id = 1 ∧ d.status = "ready" :=
  compare_requests_only_ready_ids
    [⟨1, "ready", "a.pdf", "pdf"⟩, ⟨2, "ready", "b.txt", "txt"⟩] [1, 2]
    (by decide) (compareDocuments [1, 2] "general") [1, 2] (by decide) (by decide)
    1 (by decide)

/-- Claim C4: every request issued through the shared axios client — the
LLM-backed chat, summarize, extract, risk and compare calls included —
carries the instance-level timeout of 120000 milliseconds. -/
theorem all_requests_timeout_two_minutes :
    (∀ (m p : String) (b : List (String × JVal)), (mkApiRequest m p b).timeout = 120000) ∧
    (∀ id q, (chatWithDocument id q).timeout = 120000) ∧
    (∀ id, (summarizeDocument id).timeout = 120000) ∧
    (∀ id t, (extractDocument id t).timeout = 120000) ∧
    (∀ id, (detectRisks id).timeout = 120000) ∧
    (∀ ids t, (compareDocuments ids t).timeout = 120000) ∧
    (∀ q k d, (semanticSearch q k d).timeout = 120000) ∧
    (∀ f, (uploadDocument f).timeout = 120000) ∧
    getDocuments.timeout = 120000 ∧
    (∀ id, (getDocument id).timeout = 120000) ∧
    (∀ id, (getDocumentStatus id).timeout = 120000) ∧
    (∀ id, (deleteDocument id).timeout = 120000) ∧
    (∀ id, (getDocumentText id).timeout = 120000) ∧
    (∀ id, (getInsights id).timeout = 120000) ∧
    (∀ id, (getChatHistory id).timeout = 120000) ∧
    getDashboardStats.timeout = 120000 ∧
    getRiskOverview.timeout = 120000 ∧
    getTimeline.timeout = 120000 :=
  ⟨fun _ _ _ => rfl, fun _ _ => rfl, fun _ => rfl, fun _ _ => rfl, fun _ => rfl,
   fun _ _ => rfl, fun _ _ _ => rfl, fun _ => rfl, rfl, fun _ => rfl, fun _ => rfl,
   fun _ => rfl, fun _ => rfl, fun _ => rfl, fun _ => rfl, rfl, rfl, rfl⟩

/-- Claim C7: `semanticSearch` without an explicit `topK` argument sends
`top_k = 5` (the JS default parameter), and every search request the Search
page issues carries `top_k = 10`. -/
theorem search_topk_default_5_search_page_10 :
    (∀ q : String, semanticSearchDefault q = semanticSearch q 5 none) ∧
    (∀ q : String, (semanticSearchDefault q).body.lookup "top_k" = some (JVal.n 5)) ∧
    (∀ (α : Type) (q : String) (res : Option α) (out : Except Unit α) (r : ApiRequest),
      r ∈ (handleSearch q res out).2 →
        r.body.lookup "top_k" = some (JVal.n 10)) := by
  refine ⟨fun _ => rfl, fun _ => rfl, ?_⟩
  intro α q res out r hr
  unfold handleSearch at hr
  split at hr
  · cases hr
  · cases out with
    | ok d =>
        have : r = semanticSearch (jsTrim q) 10 none := by simpa using hr
        subst this; rfl
    | error e =>
        have : r = semanticSearch (jsTrim q) 10 none := by simpa using hr
        subst this; rfl

/-- Concrete instantiation of `search_topk_default_5_search_page_10` at the
query `"gdpr"` on an empty results state. -/
theorem search_topk_default_5_search_page_10_witness :
    (semanticSearch "gdpr" 10 none).body.lookup "top_k" = some (JVal.n 10) :=
  search_topk_default_5_search_page_10.2.2 Nat "gdpr" none (.ok 0)
    (semanticSearch "gdpr" 10 none) (by decide)

/-- Claim C2: when a chat request fails, the failure is surfaced to the user
as an error toast — so the fixed fallback bubble appended in its place is
not a silently fabricated model answer — and the previously displayed chat
history is not rolled back: the new message list extends the old one, which
remains as its initial segment. -/
theorem chat_failure_surfaced_history_kept :
    ∀ (docId : Nat) (msgs : List ChatMsg) (input : String) (now : Nat),
      jsTrim input ≠ "" →
      (handleSend docId msgs input false (.error ()) now).toasts =
        [⟨"error", "Chat Error", "Failed to get response"⟩] ∧
      (handleSend docId msgs input false (.error ()) now).messages =
        msgs ++ [⟨"user", jsTrim input, [], now⟩,
                 ⟨"assistant", chatFallbackText, [], now⟩] ∧
      ∃ tail, msgs ++ tail = (handleSend docId msgs input false (.error ()) now).messages := by
  intro docId msgs input now h
  have hb : (jsTrim input == "") = false := by simpa using h
  refine ⟨?_, ?_, ?_⟩
  · simp [handleSend, hb]
  · simp [handleSend, hb]
  · exact ⟨[⟨"user", jsTrim input, [], now⟩, ⟨"assistant", chatFallbackText, [], now⟩],
      by simp [handleSend, hb]⟩

/-- Concrete instantiation of `chat_failure_surfaced_history_kept` at a
one-message history and the question `"what is this?"`. -/
theorem chat_failure_surfaced_history_kept_witness :
    (handleSend 1 [⟨"user", "hi", [], 0⟩] "what is this?" false (.error ()) 1).toasts =
      [⟨"error", "Chat Error", "Failed to get response"⟩] ∧
    (handleSend 1 [⟨"user", "hi", [], 0⟩] "what is this?" false (.error ()) 1).messages =
      [⟨"user", "hi", [], 0⟩] ++ [⟨"user", jsTrim "what is this?", [], 1⟩,
        ⟨"assistant", chatFallbackText, [], 1⟩] ∧
    ∃ tail, [(⟨"user", "hi", [], 0⟩ : ChatMsg)] ++ tail =
      (handleSend 1 [⟨"user", "hi", [], 0⟩] "what is this?" false (.error ()) 1).messages :=
  chat_failure_surfaced_history_kept 1 [⟨"user", "hi", [], 0⟩] "what is this?" 1 (by decide)

/-- Claim C9: the chat message sequence is append-only and chronological —
every `handleSend` call leaves the previous messages as an initial segment
of the new list, and a successful exchange appends the user message
immediately followed by the corresponding assistant message. -/
theorem chat_append_only_user_then_assistant :
    ∀ (docId : Nat) (msgs : List ChatMsg) (input : String) (loading : Bool)
      (outcome : Except Unit ChatResponse) (now : Nat),
      (∃ tail, msgs ++ tail = (handleSend docId msgs input loading outcome now).messages) ∧
      (jsTrim input ≠ "" → loading = false → ∀ resp, outcome = .ok resp →
        (handleSend docId msgs input loading outcome now).messages =
          msgs ++ [⟨"user", jsTrim input, [], now⟩,
                   ⟨"assistant", resp.answer, resp.sources, now⟩]) := by
  intro docId msgs input loading outcome now
  constructor
  · by_cases hb : (jsTrim input == "" || loading) = true
    · exact ⟨[], by simp [handleSend, hb]⟩
    · cases outcome with
      | ok resp =>
          exact ⟨[⟨"user", jsTrim input, [], now⟩,
            ⟨"assistant", resp.answer, resp.sources, now⟩], by simp [handleSend, hb]⟩
      | error e =>
          exact ⟨[⟨"user", jsTrim input, [], now⟩,
            ⟨"assistant", chatFallbackText, [], now⟩], by simp [handleSend, hb]⟩
  · intro h1 h2 resp h3
    subst h2; subst h3
    have hb : (jsTrim input == "") = false := by simpa using h1
    simp [handleSend, hb]

/-- Concrete instantiation of `chat_append_only_user_then_assistant` for a
successful exchange on a one-message history. -/
theorem chat_append_only_user_then_assistant_witness :
    (handleSend 1 [⟨"user", "hi", [], 0⟩] "and then?" false
        (.ok ⟨"an answer", []⟩) 1).messages =
      [⟨"user", "hi", [], 0⟩] ++ [⟨"user", jsTrim "and then?", [], 1⟩,
        ⟨"assistant", "an answer", [], 1⟩] :=
  (chat_append_only_user_then_assistant 1 [⟨"user", "hi", [], 0⟩] "and then?" false
      (.ok ⟨"an answer", []⟩) 1).2 (by decide) rfl ⟨"an answer", []⟩ rfl

/-- Claim C6: a missing question or query is rejected with no request and no
state change — when the trimmed input is empty, `handleSend` issues no chat
request and leaves the message list (and all its state) unchanged, and
`handleSearch` issues no search request and leaves the results unchanged. -/
theorem missing_question_or_query_rejected :
    (∀ (docId : Nat) (msgs : List ChatMsg) (input : String) (loading : Bool)
        (outcome : Except Unit ChatResponse) (now : Nat),
      jsTrim input = "" →
      handleSend docId msgs input loading outcome now =
        ⟨msgs, input, loading, [], []⟩) ∧
    (∀ (α : Type) (q : String) (res : Option α) (out : Except Unit α),
      jsTrim q = "" → handleSearch q res out = (res, [])) := by
  constructor
  · intro docId msgs input loading outcome now h
    simp [handleSend, h]
  · intro α q res out h
    simp [handleSearch, h]

/-- Concrete instantiation of `missing_question_or_query_rejected` at the
whitespace-only input `"   "`. -/
theorem missing_question_or_query_rejected_witness :
    handleSend 1 [⟨"user", "hi", [], 0⟩] "   " false (.ok ⟨"a", []⟩) 1 =
      ⟨[⟨"user", "hi", [], 0⟩], "   ", false, [], []⟩ ∧
    handleSearch "   " (some 7) (.ok 9) = (some 7, []) :=
  ⟨missing_question_or_query_rejected.1 1 [⟨"user", "hi", [], 0⟩] "   " false
      (.ok ⟨"a", []⟩) 1 (by decide),
   missing_question_or_query_rejected.2 Nat "   " (some 7) (.ok 9) (by decide)⟩

/-- Claim C5: the upload interface validates immediately on the client — a
file reaches `acceptedFiles` only if it matches one of the PDF/DOCX/TXT
MIME types or extensions and is at most 50 MB; any larger file never
reaches `onDrop`; and `onDrop` issues exactly one `uploadDocument` request
per accepted file. -/
theorem upload_client_validation :
    (∀ (files : List JsFile) (f : JsFile), f ∈ acceptedFiles files →
      (f.mime = "application/pdf" ∨ jsEndsWith f.name ".pdf" = true ∨
       f.mime = "application/vnd.openxmlformats-officedocument.wordprocessingml.document" ∨
       jsEndsWith f.name ".docx" = true ∨
       f.mime = "text/plain" ∨ jsEndsWith f.name ".txt" = true) ∧
      f.size ≤ 50 * 1024 * 1024) ∧
    (∀ (files : List JsFile) (f : JsFile), 50 * 1024 * 1024 < f.size →
      f ∉ acceptedFiles files) ∧
    (∀ accepted : List JsFile, (onDrop accepted).length = accepted.length) ∧
    (∀ (accepted : List JsFile) (r : ApiRequest),
      r ∈ onDrop accepted ↔ ∃ f ∈ accepted, r = uploadDocument f.name) := by
  refine ⟨?_, ?_, ?_, ?_⟩
  · intro files f hf
    have hval : fileAccepted f = true := (List.mem_filter.mp hf).2
    simp only [fileAccepted, Bool.and_eq_true, decide_eq_true_eq] at hval
    obtain ⟨hany, hsize⟩ := hval
    refine ⟨?_, hsize⟩
    have e1 : tokenMatches f "application/pdf" = (f.mime == "application/pdf") := rfl
    have e2 : tokenMatches f ".pdf" = jsEndsWith f.name ".pdf" := rfl
    have e3 : tokenMatches f
        "application/vnd.openxmlformats-officedocument.wordprocessingml.document" =
        (f.mime ==
          "application/vnd.openxmlformats-officedocument.wordprocessingml.document") := rfl
    have e4 : tokenMatches f ".docx" = jsEndsWith f.name ".docx" := rfl
    have e5 : tokenMatches f "text/plain" = (f.mime == "text/plain") := rfl
    have e6 : tokenMatches f ".txt" = jsEndsWith f.name ".txt" := rfl
    simp only [dropzoneAcceptTokens, List.any_cons, List.any_nil,
      Bool.or_eq_true, e1, e2, e3, e4, e5, e6, beq_iff_eq, Bool.false_eq_true,
      or_false] at hany
    tauto
  · intro files f hsize hf
    have hval : fileAccepted f = true := (List.mem_filter.mp hf).2
    simp only [fileAccepted, Bool.and_eq_true, decide_eq_true_eq] at hval
    obtain ⟨_, hle⟩ := hval
    unfold uploadMaxSizeBytes at hle
    omega
  · intro accepted
    simp [onDrop]
  · intro accepted r
    simp only [onDrop, List.mem_map]
    constructor
    · rintro ⟨f, hf, hfr⟩; exact ⟨f, hf, hfr.symm⟩
    · rintro ⟨f, hf, hfr⟩; exact ⟨f, hf, hfr.symm⟩

/-- Concrete instantiation of `upload_client_validation`: a 51 MB PDF is
rejected, a small PDF is accepted and triggers one upload request. -/
theorem upload_client_validation_witness :
    (⟨"big.pdf", "application/pdf", 51 * 1024 * 1024⟩ : JsFile) ∉
      acceptedFiles [⟨"big.pdf", "application/pdf", 51 * 1024 * 1024⟩,
        ⟨"ok.pdf", "application/pdf", 1000⟩] ∧
    (onDrop (acceptedFiles [⟨"big.pdf", "application/pdf", 51 * 1024 * 1024⟩,
        ⟨"ok.pdf", "application/pdf", 1000⟩])).length =
      (acceptedFiles [⟨"big.pdf", "application/pdf", 51 * 1024 * 1024⟩,
        ⟨"ok.pdf", "application/pdf", 1000⟩]).length :=
  ⟨upload_client_validation.2.1 _ _ (by norm_num),
   upload_client_validation.2.2.1 _⟩

/-! ## Poll-loop bound -/

theorem pollTicksFrom_le (outcomes : Nat → Except Unit (List DocMeta)) :
    ∀ fuel i, pollTicksFrom outcomes fuel i ≤ fuel := by
  intro fuel
  induction fuel with
  | zero => intro i; simp [pollTicksFrom]
  | succ n ih =>
      intro i
      unfold pollTicksFrom
      split
      · omega
      · have := ih (i + 1); omega

/-- Claim C10: status polling always terminates — the loop never ticks more
than `120000 / 3000` times (the hard deadline clears the interval), an
empty document list stops it vacuously on the first tick, a first-tick
request error stops it, and a first tick on which every document is
`ready` or `failed` stops it. -/
theorem poll_status_terminates :
    (∀ outcomes : Nat → Except Unit (List DocMeta),
      pollTicks outcomes ≤ pollDeadlineMs / pollIntervalMs) ∧
    allDone [] = true ∧
    (∀ outcomes : Nat → Except Unit (List DocMeta),
      outcomes 0 = .error () → pollTicks outcomes = 1) ∧
    (∀ (outcomes : Nat → Except Unit (List DocMeta)) (docs : List DocMeta),
      outcomes 0 = .ok docs → allDone docs = true → pollTicks outcomes = 1) := by
  have hstep : ∀ (outcomes : Nat → Except Unit (List DocMeta)),
      pollTickStops (outcomes 0) = true → pollTicks outcomes = 1 := by
    intro outcomes h
    show pollTicksFrom outcomes pollMaxTicks 0 = 1
    rw [show pollMaxTicks = 39 + 1 from rfl]
    unfold pollTicksFrom
    simp [h]
  refine ⟨?_, rfl, ?_, ?_⟩
  · intro outcomes
    exact pollTicksFrom_le outcomes pollMaxTicks 0
  · intro outcomes h
    exact hstep outcomes (by simp [pollTickStops, h])
  · intro outcomes docs h hdone
    exact hstep outcomes (by simp [pollTickStops, h, hdone])

/-- Concrete instantiation of `poll_status_terminates`: a constant
empty-list responder stops after one tick, a failing responder stops after
one tick, and a never-done responder is still bounded by the deadline. -/
theorem poll_status_terminates_witness :
    pollTicks (fun _ => .ok []) = 1 ∧
    pollTicks (fun _ => .error ()) = 1 ∧
    pollTicks (fun _ => .ok [⟨1, "processing", "a.pdf", "pdf"⟩]) ≤
      pollDeadlineMs / pollIntervalMs :=
  ⟨poll_status_terminates.2.2.2 (fun _ => .ok []) [] rfl rfl,
   poll_status_terminates.2.2.1 (fun _ => .error ()) rfl,
   poll_status_terminates.1 (fun _ => .ok [⟨1, "processing", "a.pdf", "pdf"⟩])⟩

/-- Claim C3: rendering a structured insight never hard-crashes on malformed
model output — when `content_json` is a string that does not parse as JSON,
`InsightCard` falls back to the empty data object (and, the computation
being total, still renders); when it parses, the parsed value is used; and
when `content_json` is already an object it is used as-is. -/
theorem insight_card_parse_fallback :
    (∀ (parse : String → Option JsValue) (s : String),
      parse s = none → insightCardData parse (.str s) = .obj []) ∧
    (∀ (parse : String → Option JsValue) (s : String) (v : JsValue),
      parse s = some v → insightCardData parse (.str s) = v) ∧
    (∀ (parse : String → Option JsValue) (fields : List (String × JsValue)),
      insightCardData parse (.obj fields) = .obj fields) := by
  refine ⟨?_, ?_, fun _ _ => rfl⟩
  · intro parse s h
    simp [insightCardData, h]
  · intro parse s v h
    simp [insightCardData, h]

/-- Concrete instantiation of `insight_card_parse_fallback`: a parser that
rejects `"not json"` yields the empty object. -/
theorem insight_card_parse_fallback_witness :
    insightCardData (fun _ => none) (.str "not json") = .obj [] :=
  insight_card_parse_fallback.1 (fun _ => none) "not json" rfl

end DocInsights
